import Mathlib

set_option maxHeartbeats 1000000

/-!
Shallow embedding of the AutoDE scraper (src/common.py, src/auto_de_bot.py,
src/config.py): Python scalar values, the two sanitizers, the sliding-window
rate limiter, the retry decorator, endpoint discovery, per-listing record
extraction, and the sqlite-backed car store.
-/

/-- Model of a Python scalar value as it flows through the sanitizers:
`None`, `int`, `float` (modelled exactly, as a rational), `str`, and any
other object. -/
inductive PyVal where
  | none
  | int (n : Int)
  | float (q : Rat)
  | str (s : String)
  | other

deriving instance DecidableEq for PyVal

/-- Python truthiness (`if not value`): falsy values among the scalars we
model are `None`, `0`, `0.0` and the empty string. -/
def pyFalsy : PyVal → Bool
  | PyVal.none => true
  | PyVal.int n => n = 0
  | PyVal.float q => q = 0
  | PyVal.str s => s.data.isEmpty
  | PyVal.other => false

/-- Python numeric comparison `value > 0` (only ever reached on results of
sanitize_number with a numeric default, hence numeric values). -/
def pyGtZero : PyVal → Bool
  | PyVal.int n => 0 < n
  | PyVal.float q => 0 < q
  | _ => false

/-- Whether a value is of Python type int or float. -/
def PyVal.isNumeric : PyVal → Bool
  | PyVal.int _ => true
  | PyVal.float _ => true
  | _ => false

/-- Python str() conversion. The textual form of a float is approximated
(no claim evaluates it); ints and strings are exact. -/
def pyStr : PyVal → String
  | PyVal.none => "None"
  | PyVal.int n => toString n
  | PyVal.float q => toString q
  | PyVal.str s => s
  | PyVal.other => "object"

/-- ASCII whitespace removed by Python str.strip(). -/
def isPySpace (c : Char) : Bool :=
  c = ' ' ∨ c = '\t' ∨ c = '\n' ∨ c = '\r' ∨ c = Char.ofNat 11 ∨ c = Char.ofNat 12

/-- Python str.strip(): drop leading and trailing whitespace. -/
def pyStrip (s : String) : String :=
  String.mk (((s.data.dropWhile isPySpace).reverse.dropWhile isPySpace).reverse)

/-- Python slicing s[:n]. -/
def pyTake (s : String) (n : Nat) : String :=
  String.mk (s.data.take n)

/-- Python s.replace(c, "") for a single character c: delete every
occurrence of c. -/
def removeChar (s : String) (c : Char) : String :=
  String.mk (s.data.filter (fun a => a ≠ c))

/-- common.py line 126: the dangerous_chars blacklist
['<', '>', '"', "'", '\\', '\x00'] (39 is the apostrophe). -/
def dangerous_chars : List Char :=
  ['<', '>', '"', Char.ofNat 39, '\\', Char.ofNat 0]

/-- common.py `sanitize_string` (lines 111-130): None becomes "Unknown";
otherwise convert to text, strip, truncate to max_length, delete each
blacklisted character, and fall back to "Unknown" when empty. -/
def sanitize_string (value : PyVal) (max_length : Nat) : String :=
  match value with
  | PyVal.none => "Unknown"
  | v =>
    let clean0 := pyStrip (pyStr v)
    let clean1 := if max_length < clean0.data.length then pyTake clean0 max_length else clean0
    let clean2 := dangerous_chars.foldl removeChar clean1
    if clean2.data.isEmpty then "Unknown" else clean2

/-- Value of a list of decimal digit characters. -/
def digitsToNat (cs : List Char) : Nat :=
  cs.foldl (fun a c => a * 10 + (c.toNat - 48)) 0

/-- Python int(s) on a string drawn from digits, '.', '-': an optional
leading minus sign followed by a nonempty run of digits; anything else
raises ValueError (None here). -/
def parseInt (s : String) : Option Int :=
  match s.data with
  | [] => Option.none
  | c :: rest =>
    if c = '-' then
      if ¬ rest.isEmpty ∧ rest.all Char.isDigit then
        some (-(digitsToNat rest : Int))
      else Option.none
    else
      if (c :: rest).all Char.isDigit then
        some ((digitsToNat (c :: rest) : Int))
      else Option.none

/-- Python float(s) on a string drawn from digits, '.', '-': an optional
leading minus, then digits with exactly one '.' somewhere and at least one
digit overall; anything else raises ValueError (None here). The value is
exact as a rational. -/
def parseFloat (s : String) : Option Rat :=
  let body := match s.data with
    | '-' :: rest => rest
    | cs => cs
  let neg : Bool := match s.data with
    | '-' :: _ => true
    | _ => false
  match body.splitOn '.' with
  | [ip, fp] =>
    if ip.all Char.isDigit ∧ fp.all Char.isDigit ∧ (¬ ip.isEmpty ∨ ¬ fp.isEmpty) then
      let mag : Rat := (digitsToNat ip : Rat) + (digitsToNat fp : Rat) / ((10 : Rat) ^ fp.length)
      some (if neg then -mag else mag)
    else Option.none
  | _ => Option.none

/-- common.py `sanitize_number` (lines 133-147): numeric values pass
through unchanged; a string is reduced to its digits, '.' and '-'
characters, then parsed as float when a '.' survives, else as int; any
parse failure or non-numeric, non-string input yields the default. -/
def sanitize_number (value : PyVal) (default : PyVal) : PyVal :=
  match value with
  | PyVal.int n => PyVal.int n
  | PyVal.float q => PyVal.float q
  | PyVal.str s =>
    let clean := s.data.filter (fun c => c.isDigit ∨ c = '.' ∨ c = '-')
    if clean.contains '.' then
      match parseFloat (String.mk clean) with
      | some q => PyVal.float q
      | Option.none => default
    else
      match parseInt (String.mk clean) with
      | some n => PyVal.int n
      | Option.none => default
  | _ => default

example : sanitize_string (PyVal.str "<script>x</script>") 50 = "scriptx/script" := by decide
example : sanitize_string PyVal.none 500 = "Unknown" := by decide
example : sanitize_string (PyVal.str "  abc  ") 500 = "abc" := by decide
example : sanitize_string (PyVal.str "<") 3 = "Unknown" := by decide
example : sanitize_number (PyVal.str "12.5kg") (PyVal.int 0) = PyVal.float (25/2) := by
  have h : sanitize_number (PyVal.str "12.5kg") (PyVal.int 0)
      = PyVal.float (((12 : Nat) : Rat) + ((5 : Nat) : Rat) / (10 : Rat) ^ (1 : Nat)) := rfl
  rw [h]
  norm_num
example : sanitize_number (PyVal.str "abc") (PyVal.int 0) = PyVal.int 0 := by decide
example : sanitize_number PyVal.none (PyVal.int 7) = PyVal.int 7 := by decide
example : sanitize_number (PyVal.str "-42") (PyVal.int 0) = PyVal.int (-42) := by decide

/-- common.py `RateLimiter` (lines 48-55): configured bound and window plus
the recorded request timestamps (seconds, as exact rationals). -/
structure RateLimiter where
  max_requests : Nat
  time_window : Rat
  requests : List Rat

deriving instance DecidableEq for RateLimiter

/-- common.py `RateLimiter.wait_if_needed` (lines 57-73), with the current
clock reading passed explicitly. Returns the time slept together with the
state after the call, or `Option.none` in the one situation where the
Python code would raise (`self.requests[0]` on an empty pruned list, which
needs `max_requests = 0`). When the pruned window is full, the code sleeps
`time_window - (now - requests[0])`, clears the whole history, and then
appends `now`. -/
def wait_if_needed (rl : RateLimiter) (now : Rat) : Option (Rat × RateLimiter) :=
  let reqs := rl.requests.filter (fun t => now - t < rl.time_window)
  if rl.max_requests ≤ reqs.length then
    match reqs.head? with
    | Option.none => Option.none
    | some t0 =>
      let sleep_time := rl.time_window - (now - t0)
      if 0 < sleep_time then
        some (sleep_time, { rl with requests := [now] })
      else
        some (0, { rl with requests := reqs ++ [now] })
  else
    some (0, { rl with requests := reqs ++ [now] })

/-- Outcome of one wrapped operation call: a normal return or a raised
exception of type ε. -/
inductive RetryResult (ε α : Type) where
  | ok (a : α)
  | raised (e : ε)
  | noneReturned

deriving instance DecidableEq for RetryResult

/-- Loop body of common.py `retry_on_failure` (lines 86-106). `remaining` is
`max_retries - retries`, `attempt` numbers the calls of the wrapped
operation from 0, `current_delay` is the next sleep length. Returns the
overall outcome paired with the list of sleeps performed.
`noneReturned` models the `return None` after the while loop, reachable
only with `max_retries = 0`. -/
def retry_aux {ε α : Type} (op : Nat → Except ε α) (backoff : Nat) :
    Nat → Nat → Nat → RetryResult ε α × List Nat
  | 0, _, _ => (RetryResult.noneReturned, [])
  | remaining + 1, attempt, current_delay =>
    match op attempt with
    | Except.ok a => (RetryResult.ok a, [])
    | Except.error e =>
      if remaining = 0 then (RetryResult.raised e, [])
      else
        let rest := retry_aux op backoff remaining (attempt + 1) (current_delay * backoff)
        (rest.1, current_delay :: rest.2)

/-- common.py `retry_on_failure` (lines 80-108) applied to an operation
whose behaviour on its i-th call (0-based) is `op i`. -/
def retry_on_failure {ε α : Type} (max_retries delay backoff : Nat)
    (op : Nat → Except ε α) : RetryResult ε α × List Nat :=
  retry_aux op backoff max_retries 0 delay

/-- What the upstream HTTP layer did for one request in common.py
`find_endpoint`: a 2xx response with a body, or one of the three caught
request exception kinds. -/
inductive FetchOutcome where
  | success (text : String)
  | timeout
  | sslError
  | requestError

/-- Python `identifier in text` substring test (used only for logging in
find_endpoint). -/
def strContains (text ident : String) : Bool :=
  decide (ident.data <:+: text.data)

/-- common.py `find_endpoint` (lines 197-237): on success the local
`endpoints` list is created empty and never appended to (the
`identifier in response.text` check only logs), and every caught request
exception returns the empty list as well. -/
def find_endpoint (url identifier bot_name : String)
    (headers : List (String × String)) (outcome : FetchOutcome) : List String :=
  match outcome with
  | FetchOutcome.success text =>
    let endpoints : List String := []
    let _found := strContains text identifier
    endpoints
  | FetchOutcome.timeout => []
  | FetchOutcome.sslError => []
  | FetchOutcome.requestError => []

/-- config.py BASE_URL (line 14) with the page number formatted in. -/
def base_url (page : Nat) : String :=
  "https://www.auto.de/search?pageNumber=" ++ toString page ++ "&activeSort=NEWEST_OFFERS_FIRST"

/-- config.py RESPONSE_IDENTIFIER (line 15). -/
def response_identifier : String :=
  "car-search-endpoint/api/v1/search/car/formatted"

/-- config.py BOT_NAME (line 10). -/
def bot_name : String := "AutoDE Bot"

/-- The page loop of auto_de_bot.py `AutoDEBot.check_new_listings`
(lines 327-343): for each page 1..max_pages, discover endpoints with
`find_endpoint`; when none are found the page is skipped
(`if not endpoints: continue`), otherwise each endpoint is processed and
its car count accumulated. `outcomes` gives the HTTP outcome for each
page's discovery request and `process_page` the count
`process_listing_page` would return for an endpoint. -/
def check_new_listings_total (max_pages : Nat) (outcomes : Nat → FetchOutcome)
    (process_page : String → Nat) : Nat :=
  ((List.range max_pages).map (fun i =>
    let endpoints := find_endpoint (base_url (i + 1)) response_identifier bot_name [] (outcomes i)
    if endpoints.isEmpty then 0
    else (endpoints.map process_page).sum)).sum

set_option linter.unusedVariables false

/-- The `mainData` block of a raw listing; a missing key is `Option.none`. -/
structure MainData where
  make : Option PyVal
  model : Option PyVal
  subModel : Option PyVal
  firstRegistrationYear : Option PyVal
  mileage : Option PyVal

deriving instance DecidableEq for MainData

/-- The `price` block of a raw listing. -/
structure PriceData where
  currentSalesPrice : Option PyVal

deriving instance DecidableEq for PriceData

/-- The `metaData` block of a raw listing. -/
structure MetaData where
  mainImageId : Option PyVal

deriving instance DecidableEq for MetaData

/-- The `driveSuspension` block of a raw listing. -/
structure DriveSuspension where
  gearbox : Option PyVal

deriving instance DecidableEq for DriveSuspension

/-- The `consumption` block of a raw listing. -/
structure ConsumptionData where
  fuel : Option PyVal
  consumptionCombined : Option PyVal

deriving instance DecidableEq for ConsumptionData

/-- The `engineData` block of a raw listing. -/
structure EngineData where
  powerKW : Option PyVal
  powerPS : Option PyVal

deriving instance DecidableEq for EngineData

/-- The `environmentEmissions` block of a raw listing. -/
structure EnvironmentEmissions where
  co2 : Option PyVal

deriving instance DecidableEq for EnvironmentEmissions

/-- One raw listing object from the upstream JSON, with every block
optional; `Option.none` for a field models an absent dictionary key. -/
structure RawCar where
  idKey : Option PyVal
  mainData : Option MainData
  priceData : Option PriceData
  metaData : Option MetaData
  driveSuspension : Option DriveSuspension
  consumption : Option ConsumptionData
  engineData : Option EngineData
  environmentEmissions : Option EnvironmentEmissions

deriving instance DecidableEq for RawCar

/-- A raw listing with every key absent. -/
def RawCar.empty : RawCar :=
  ⟨Option.none, Option.none, Option.none, Option.none,
   Option.none, Option.none, Option.none, Option.none⟩

/-- auto_de_bot.py transmission_map (lines 216-220). -/
def transmission_map : List (String × String) :=
  [("selector_gearbox_manualShift", "Manual"),
   ("selector_gearbox_automatic", "Automatic"),
   ("selector_gearbox_semiautomatic", "Semi-Automatic")]

/-- auto_de_bot.py fuel_map (lines 229-236). -/
def fuel_map : List (String × String) :=
  [("selector_fuel_petrol", "Petrol"),
   ("selector_fuel_diesel", "Diesel"),
   ("selector_fuel_electric", "Electric"),
   ("selector_fuel_hybrid", "Hybrid"),
   ("selector_fuel_lpg", "LPG"),
   ("selector_fuel_cng", "CNG")]

/-- Python dict.get(key, default) on a string-keyed dict of strings: a
non-string key (never present in the dict) also yields the default. -/
def dict_get_str (m : List (String × String)) (key : PyVal) (dflt : String) : String :=
  match key with
  | PyVal.str s => (m.lookup s).getD dflt
  | _ => dflt

/-- auto_de_bot.py `AutoDEBot.get_transmission_type` (lines 211-222). -/
def get_transmission_type (car : RawCar) : String :=
  let drive_suspension := car.driveSuspension.getD ⟨Option.none⟩
  let gearbox := drive_suspension.gearbox.getD (PyVal.str "Unknown")
  sanitize_string (PyVal.str (dict_get_str transmission_map gearbox "Unknown")) 500

/-- auto_de_bot.py `AutoDEBot.get_fuel_type` (lines 224-238): note the
default label for a code missing from fuel_map is "Hybrid". -/
def get_fuel_type (car : RawCar) : String :=
  let consumption := car.consumption.getD ⟨Option.none, Option.none⟩
  let fuel := consumption.fuel.getD (PyVal.str "Unknown")
  sanitize_string (PyVal.str (dict_get_str fuel_map fuel "Hybrid")) 500

/-- auto_de_bot.py `AutoDEBot.get_power_data` (lines 240-248). -/
def get_power_data (car : RawCar) : String :=
  let engine_data := car.engineData.getD ⟨Option.none, Option.none⟩
  let power_kw := sanitize_number (engine_data.powerKW.getD (PyVal.int 0)) (PyVal.int 0)
  let power_ps := sanitize_number (engine_data.powerPS.getD (PyVal.int 0)) (PyVal.int 0)
  if ¬ pyFalsy power_kw ∧ ¬ pyFalsy power_ps then
    pyStr power_kw ++ " KW (" ++ pyStr power_ps ++ " PS)"
  else "Unknown"

/-- auto_de_bot.py `AutoDEBot.get_co2_emission` (lines 250-257). -/
def get_co2_emission (car : RawCar) : String :=
  let env_emissions := car.environmentEmissions.getD ⟨Option.none⟩
  let co2 := sanitize_number (env_emissions.co2.getD (PyVal.int 0)) (PyVal.int 0)
  if ¬ pyFalsy co2 ∧ pyGtZero co2 then
    pyStr co2 ++ " g/km"
  else "Unknown"

/-- auto_de_bot.py `AutoDEBot.get_combined_consumption` (lines 259-266). -/
def get_combined_consumption (car : RawCar) : String :=
  let consumption := car.consumption.getD ⟨Option.none, Option.none⟩
  let combined := sanitize_number (consumption.consumptionCombined.getD (PyVal.int 0)) (PyVal.int 0)
  if ¬ pyFalsy combined ∧ pyGtZero combined then
    pyStr combined ++ " L/100km"
  else "Unknown"

/-- common.py `get_vehicle_image_url` (lines 240-255). -/
def get_vehicle_image_url (car_id : String) (image_id : Option PyVal) : String :=
  if pyFalsy (PyVal.str car_id) then "No image available"
  else
    let safe_car_id := sanitize_string (PyVal.str car_id) 50
    let iv := image_id.getD PyVal.none
    if ¬ pyFalsy iv then
      "https://www.auto.de/images/vehicles/" ++ safe_car_id ++ "/" ++ sanitize_string iv 50
    else
      "https://www.auto.de/images/vehicles/" ++ safe_car_id ++ "/default"

/-- The `Features` sub-dictionary built by extract_car_info and read back
by insert_car; a missing key is `Option.none`. -/
structure Features where
  mileage_road : Option PyVal
  calendar : Option PyVal
  gas_pump : Option PyVal
  speedometer : Option PyVal
  water_drop : Option PyVal
  leaf : Option PyVal

deriving instance DecidableEq for Features

/-- The car_info dictionary passed from extract_car_info to insert_car;
a missing key is `Option.none`. -/
structure CarInfo where
  idVal : Option PyVal
  modelAndMake : Option PyVal
  priceVal : Option PyVal
  linkVal : Option PyVal
  imageVal : Option PyVal
  company : Option PyVal
  transmission : Option PyVal
  features : Option Features

deriving instance DecidableEq for CarInfo

/-- auto_de_bot.py `AutoDEBot.extract_car_info` (lines 130-209): skip the
listing (`Option.none`) when `car.get('_id')` is falsy, otherwise build the
sanitized car_info dictionary. -/
def extract_car_info (car : RawCar) : Option CarInfo :=
  let car_id0 := car.idKey.getD PyVal.none
  if pyFalsy car_id0 then Option.none
  else
    let car_id := sanitize_string car_id0 50
    let main_data := car.mainData.getD ⟨Option.none, Option.none, Option.none, Option.none, Option.none⟩
    let make := sanitize_string (main_data.make.getD (PyVal.str "Unknown")) 500
    let model := sanitize_string (main_data.model.getD (PyVal.str "Unknown")) 500
    let sub_model := sanitize_string (main_data.subModel.getD (PyVal.str "")) 500
    let model_parts :=
      if ¬ sub_model.data.isEmpty ∧ sub_model ≠ "Unknown" then [make, model, sub_model]
      else [make, model]
    let model_marka := String.intercalate " " model_parts
    let price_data := car.priceData.getD ⟨Option.none⟩
    let price := sanitize_number (price_data.currentSalesPrice.getD (PyVal.int 0)) (PyVal.int 0)
    let first_registration_year :=
      sanitize_number (main_data.firstRegistrationYear.getD (PyVal.int 0)) (PyVal.int 0)
    let link := "https://www.auto.de/search/vehicle/" ++ car_id
    let main_image_id := (car.metaData.getD ⟨Option.none⟩).mainImageId
    let image_url := get_vehicle_image_url car_id main_image_id
    let transmission := get_transmission_type car
    let fuel_type := get_fuel_type car
    let power_data := get_power_data car
    let co2_emission := get_co2_emission car
    let consumption := get_combined_consumption car
    let mileage := sanitize_number (main_data.mileage.getD (PyVal.int 0)) (PyVal.int 0)
    some
      { idVal := some (PyVal.str car_id)
        modelAndMake := some (PyVal.str model_marka)
        priceVal := some price
        linkVal := some (PyVal.str link)
        imageVal := some (PyVal.str image_url)
        company := some (PyVal.str "autode")
        transmission := some (PyVal.str transmission)
        features := some
          { mileage_road := some mileage
            calendar := some first_registration_year
            gas_pump := some (PyVal.str fuel_type)
            speedometer := some (PyVal.str power_data)
            water_drop := some (PyVal.str consumption)
            leaf := some (PyVal.str co2_emission) } }

/-- One row of the sqlite `cars` table (common.py lines 273-291).
Timestamps are seconds, as exact rationals. -/
structure CarRow where
  id : String
  model_make : String
  price : PyVal
  link : String
  image_url : String
  company : String
  transmission : String
  mileage : PyVal
  first_registration : PyVal
  fuel_type : String
  power_data : String
  co2_emission : String
  consumption : String
  created_at : Rat
  updated_at : Rat

deriving instance DecidableEq for CarRow

/-- An empty Features dictionary (the default of
`car_info.get('Features', {})`). -/
def Features.empty : Features :=
  ⟨Option.none, Option.none, Option.none, Option.none, Option.none, Option.none⟩

/-- common.py `DatabaseManager.insert_car` (lines 304-348) on a database
state given as the list of rows of the `cars` table. `now` is
CURRENT_TIMESTAMP, `fault` models a raised sqlite3.Error (caught; the call
then returns False and leaves the table unchanged). The INSERT OR REPLACE
statement names every column except created_at, so the freshly inserted
replacement row takes created_at from its column DEFAULT, i.e. `now`. -/
def insert_car (cars : List CarRow) (now : Rat) (car_info : CarInfo)
    (bot_name : String) (fault : Bool) : Bool × List CarRow :=
  if fault then (false, cars)
  else
    let car_id := sanitize_string (car_info.idVal.getD PyVal.none) 50
    let model_make := sanitize_string (car_info.modelAndMake.getD PyVal.none) 200
    let price := sanitize_number (car_info.priceVal.getD PyVal.none) (PyVal.int 0)
    let link := sanitize_string (car_info.linkVal.getD PyVal.none) 500
    let image_url := sanitize_string (car_info.imageVal.getD PyVal.none) 500
    let company := sanitize_string (car_info.company.getD PyVal.none) 50
    let transmission := sanitize_string (car_info.transmission.getD PyVal.none) 50
    let features := car_info.features.getD Features.empty
    let mileage := sanitize_number (features.mileage_road.getD PyVal.none) (PyVal.int 0)
    let first_registration := sanitize_number (features.calendar.getD PyVal.none) (PyVal.int 0)
    let fuel_type := sanitize_string (features.gas_pump.getD PyVal.none) 50
    let power_data := sanitize_string (features.speedometer.getD PyVal.none) 100
    let co2_emission := sanitize_string (features.leaf.getD PyVal.none) 50
    let consumption := sanitize_string (features.water_drop.getD PyVal.none) 50
    let row : CarRow :=
      { id := car_id, model_make := model_make, price := price, link := link
        image_url := image_url, company := company, transmission := transmission
        mileage := mileage, first_registration := first_registration
        fuel_type := fuel_type, power_data := power_data
        co2_emission := co2_emission, consumption := consumption
        created_at := now, updated_at := now }
    (true, cars.filter (fun r => r.id ≠ car_id) ++ [row])

/-- common.py `DatabaseManager.delete_old_cars` (lines 350-375): delete
every row with created_at strictly before `now` minus `days` days and
return the number deleted; a sqlite3.Error (`fault`) is caught and the
call returns 0 with the table unchanged. -/
def delete_old_cars (cars : List CarRow) (now : Rat) (days : Int)
    (fault : Bool) : Nat × List CarRow :=
  if fault then (0, cars)
  else
    let cutoff := now - (days : Rat) * 86400
    ((cars.filter (fun r => r.created_at < cutoff)).length,
     cars.filter (fun r => ¬ r.created_at < cutoff))

/-- The raw listing of the end-to-end test property in the spec:
only `_id`, `mainData.make`, `mainData.model` and
`price.currentSalesPrice` present. -/
def example_raw_car : RawCar :=
  { RawCar.empty with
    idKey := some (PyVal.str "abc")
    mainData := some ⟨some (PyVal.str "BMW"), some (PyVal.str "X5"), Option.none, Option.none, Option.none⟩
    priceData := some ⟨some (PyVal.int 45000)⟩ }

/-- A raw listing whose only content is the `consumption.fuel` code. -/
def mk_car_with_fuel (f : Option PyVal) : RawCar :=
  { RawCar.empty with consumption := some ⟨f, Option.none⟩ }

/-- A raw listing whose only content is the `driveSuspension.gearbox`
code. -/
def mk_car_with_gearbox (g : Option PyVal) : RawCar :=
  { RawCar.empty with driveSuspension := some ⟨g⟩ }

/-- C2: for every url, identifier, bot name, headers and upstream outcome
(success, timeout, TLS error or transport error), find_endpoint returns
the empty endpoint list, so the per-page loop of check_new_listings never
enters the fetch-extract-persist path and processes zero cars. -/
theorem find_endpoint_always_empty :
    (∀ (url identifier bn : String) (headers : List (String × String))
        (outcome : FetchOutcome),
      find_endpoint url identifier bn headers outcome = []) ∧
    (∀ (max_pages : Nat) (outcomes : Nat → FetchOutcome) (process_page : String → Nat),
      check_new_listings_total max_pages outcomes process_page = 0) := by
  constructor
  · intro url identifier bn headers outcome
    cases outcome <;> rfl
  · intro max_pages outcomes process_page
    unfold check_new_listings_total
    rw [List.sum_eq_zero]
    intro x hx
    rcases List.mem_map.mp hx with ⟨i, _, rfl⟩
    cases outcomes i <;> rfl

/-- C6: sanitize_number never raises and, for a numeric default, always
returns a numeric value; numeric inputs pass through unchanged; absent or
other-typed input and any parse failure yield the default; the three
worked examples of the spec hold (12.5 exactly, as a rational). -/
theorem sanitize_number_spec :
    (∀ v d, d.isNumeric = true → (sanitize_number v d).isNumeric = true) ∧
    (∀ n d, sanitize_number (PyVal.int n) d = PyVal.int n) ∧
    (∀ q d, sanitize_number (PyVal.float q) d = PyVal.float q) ∧
    (∀ d, sanitize_number PyVal.none d = d) ∧
    (∀ d, sanitize_number PyVal.other d = d) ∧
    sanitize_number (PyVal.str "12.5kg") (PyVal.int 0) = PyVal.float (25/2) ∧
    sanitize_number (PyVal.str "abc") (PyVal.int 0) = PyVal.int 0 ∧
    sanitize_number PyVal.none (PyVal.int 7) = PyVal.int 7 := by
  refine ⟨?_, fun n d => rfl, fun q d => rfl, fun d => rfl, fun d => rfl, ?_, by decide, by decide⟩
  · intro v d hd
    cases v with
    | none => simpa [sanitize_number] using hd
    | other => simpa [sanitize_number] using hd
    | int n => simp [sanitize_number, PyVal.isNumeric]
    | float q => simp [sanitize_number, PyVal.isNumeric]
    | str s =>
      simp only [sanitize_number]
      split
      · split
        · simp [PyVal.isNumeric]
        · exact hd
      · split
        · simp [PyVal.isNumeric]
        · exact hd
  · have h : sanitize_number (PyVal.str "12.5kg") (PyVal.int 0)
        = PyVal.float (((12 : Nat) : Rat) + ((5 : Nat) : Rat) / (10 : Rat) ^ (1 : Nat)) := rfl
    rw [h]
    norm_num

/-- Witness for sanitize_number_spec at a concrete numeric default. -/
theorem sanitize_number_spec_witness :
    (sanitize_number (PyVal.str "x9x" ) (PyVal.int 5)).isNumeric = true :=
  sanitize_number_spec.1 (PyVal.str "x9x") (PyVal.int 5) (by decide)

/-- C8: the spec's end-to-end raw listing extracts to the expected record:
id "abc", title "BMW X5" (make and model joined by one space, no
sub-model), price 45000, transmission "Unknown", and fuel "Hybrid" — and in
general any fuel code outside fuel_map, or an absent fuel code, yields
the label "Hybrid" rather than "Unknown". -/
theorem extract_car_info_example_spec :
    extract_car_info example_raw_car = some
      { idVal := some (PyVal.str "abc")
        modelAndMake := some (PyVal.str "BMW X5")
        priceVal := some (PyVal.int 45000)
        linkVal := some (PyVal.str "https://www.auto.de/search/vehicle/abc")
        imageVal := some (PyVal.str "https://www.auto.de/images/vehicles/abc/default")
        company := some (PyVal.str "autode")
        transmission := some (PyVal.str "Unknown")
        features := some
          { mileage_road := some (PyVal.int 0)
            calendar := some (PyVal.int 0)
            gas_pump := some (PyVal.str "Hybrid")
            speedometer := some (PyVal.str "Unknown")
            water_drop := some (PyVal.str "Unknown")
            leaf := some (PyVal.str "Unknown") } } ∧
    (∀ s : String, fuel_map.lookup s = Option.none →
      get_fuel_type (mk_car_with_fuel (some (PyVal.str s))) = "Hybrid") ∧
    get_fuel_type (mk_car_with_fuel Option.none) = "Hybrid" := by
  refine ⟨by decide, ?_, by decide⟩
  intro s hs
  simp only [get_fuel_type, mk_car_with_fuel, dict_get_str, Option.getD_some, hs]
  decide

/-- Witness for extract_car_info_example_spec at a concrete unknown fuel
code. -/
theorem extract_car_info_example_spec_witness :
    get_fuel_type (mk_car_with_fuel (some (PyVal.str "selector_fuel_coal"))) = "Hybrid" :=
  extract_car_info_example_spec.2.1 "selector_fuel_coal" (by decide)

/-- A car row with all text fields fixed and the given creation and update
timestamp, used for concrete store examples. -/
def example_row (t : Rat) : CarRow :=
  { id := "x", model_make := "m", price := PyVal.int 0, link := "", image_url := ""
    company := "", transmission := "", mileage := PyVal.int 0
    first_registration := PyVal.int 0, fuel_type := "", power_data := ""
    co2_emission := "", consumption := "", created_at := t, updated_at := t }

/-- C9: delete_old_cars removes exactly the rows created strictly before
now minus `days` days and returns their number; rows at or after the
cutoff survive; a storage fault yields 0 with the table unchanged; and the
spec's two-row example deletes only the 10-day-old row. -/
theorem delete_old_cars_spec (cars : List CarRow) (now : Rat) (days : Int) :
    delete_old_cars cars now days true = (0, cars) ∧
    (delete_old_cars cars now days false).1
      = (cars.filter (fun r => r.created_at < now - (days : Rat) * 86400)).length ∧
    (delete_old_cars cars now days false).2
      = cars.filter (fun r => ¬ r.created_at < now - (days : Rat) * 86400) ∧
    (∀ r ∈ cars, now - (days : Rat) * 86400 ≤ r.created_at →
      r ∈ (delete_old_cars cars now days false).2) ∧
    delete_old_cars [example_row (now - 10 * 86400), example_row (now - 86400)] now 7 false
      = (1, [example_row (now - 86400)]) := by
  refine ⟨rfl, rfl, rfl, ?_, ?_⟩
  · intro r hr hcut
    simp only [delete_old_cars, if_neg Bool.false_ne_true]
    exact List.mem_filter.mpr ⟨hr, by simpa using not_lt.mpr hcut⟩
  · have h1 : (now - 10 * 86400 < now - ((7 : Int) : Rat) * 86400) := by push_cast; linarith
    have h2 : ¬ (now - 86400 < now - ((7 : Int) : Rat) * 86400) := by push_cast; linarith
    simp [delete_old_cars, List.filter, example_row, h1, h2,
      (by norm_num : (7:Rat) < 10), (by norm_num : ¬ (10:Rat) ≤ 7)]

/-- Witness for delete_old_cars_spec: a row exactly at the cutoff
survives. -/
theorem delete_old_cars_spec_witness :
    example_row 0 ∈ (delete_old_cars [example_row 0] 86400 1 false).2 :=
  (delete_old_cars_spec [example_row 0] 86400 1).2.2.2.1 (example_row 0)
    (by simp) (by push_cast; norm_num [example_row])

/-- The car_info dictionary used for the repeated-upsert experiment: the
same id "abc" with a varying price. -/
def example_info (p : Int) : CarInfo :=
  { idVal := some (PyVal.str "abc")
    modelAndMake := some (PyVal.str "BMW X5")
    priceVal := some (PyVal.int p)
    linkVal := some (PyVal.str "L")
    imageVal := some (PyVal.str "I")
    company := some (PyVal.str "autode")
    transmission := some (PyVal.str "Manual")
    features := some
      { mileage_road := some (PyVal.int 0)
        calendar := some (PyVal.int 0)
        gas_pump := some (PyVal.str "Petrol")
        speedometer := some (PyVal.str "Unknown")
        water_drop := some (PyVal.str "Unknown")
        leaf := some (PyVal.str "Unknown") } }

/-- C1: evaluation at the failing input. Upserting id "abc" first at time
0 and again at time 86400 leaves exactly one row with the latest values,
but its created_at is 86400, not the 0 set at the first insert: the
INSERT OR REPLACE omits created_at from its column list, so the
replacement row takes the column DEFAULT CURRENT_TIMESTAMP and the
original creation timestamp is lost, contrary to the claim. -/
theorem insert_car_resets_created_at :
    ((insert_car (insert_car [] 0 (example_info 1000) bot_name false).2
        86400 (example_info 2000) bot_name false).2).map
      (fun r => (r.id, r.price, r.created_at))
      = [("abc", PyVal.int 2000, (86400 : Rat))] ∧
    ((insert_car [] 0 (example_info 1000) bot_name false).2).map
      (fun r => (r.id, r.price, r.created_at))
      = [("abc", PyVal.int 1000, (0 : Rat))] := by
  exact ⟨by decide, by decide⟩

/-- C10: with max_requests at least 1, every completed wait_if_needed call
leaves at most max_requests recorded timestamps: the call prunes aged-out
entries first, and on a full window it clears the history entirely before
recording the new call. -/
theorem wait_if_needed_length_invariant (rl : RateLimiter) (now s : Rat)
    (st : RateLimiter) (hN : 1 ≤ rl.max_requests)
    (h : wait_if_needed rl now = some (s, st)) :
    st.requests.length ≤ rl.max_requests := by
  unfold wait_if_needed at h
  by_cases hle : rl.max_requests ≤ (rl.requests.filter (fun t => now - t < rl.time_window)).length
  · rw [if_pos hle] at h
    cases hl : rl.requests.filter (fun t => now - t < rl.time_window) with
    | nil => rw [hl] at h; exact absurd h (by simp)
    | cons t0 rest =>
      rw [hl] at h
      simp only [List.head?_cons] at h
      have ht0 : t0 ∈ rl.requests.filter (fun t => now - t < rl.time_window) := by
        rw [hl]; exact List.mem_cons_self _ _
      have hwin : now - t0 < rl.time_window := by
        simpa using List.of_mem_filter ht0
      rw [if_pos (by linarith : (0:Rat) < rl.time_window - (now - t0))] at h
      simp only [Option.some.injEq, Prod.mk.injEq] at h
      obtain ⟨-, hst⟩ := h
      rw [← hst]
      simpa using hN
  · rw [if_neg hle] at h
    simp only [Option.some.injEq, Prod.mk.injEq] at h
    obtain ⟨-, hst⟩ := h
    rw [← hst]
    simp only [List.length_append, List.length_cons, List.length_nil]
    omega

/-- Witness for wait_if_needed_length_invariant at a concrete full
window. -/
theorem wait_if_needed_length_invariant_witness :
    ({ max_requests := 1, time_window := 60, requests := [10] } : RateLimiter).requests.length ≤ 1 :=
  wait_if_needed_length_invariant ⟨1, 60, [0]⟩ 10 50 ⟨1, 60, [10]⟩ (by norm_num)
    (by
      unfold wait_if_needed
      rw [show ([(0:Rat)].filter (fun t => (10:Rat) - t < 60)) = [0] from by norm_num]
      norm_num)

/-- C3: for a call with chronologically recorded timestamps: when fewer
than max_requests timestamps lie in the trailing window, the call sleeps 0
seconds (and keeps the pruned window plus the new call); when at least
max_requests lie in the window, it sleeps exactly
time_window - (now - oldest) seconds, where oldest is the earliest
recorded request still inside the window, then clears the entire history
and records the new call. -/
theorem wait_if_needed_sleep_spec (rl : RateLimiter) (now : Rat)
    (hN : 1 ≤ rl.max_requests)
    (hsort : rl.requests.Pairwise (· ≤ ·)) :
    ((rl.requests.filter (fun t => now - t < rl.time_window)).length < rl.max_requests →
      wait_if_needed rl now =
        some (0, { rl with
          requests := rl.requests.filter (fun t => now - t < rl.time_window) ++ [now] })) ∧
    (rl.max_requests ≤ (rl.requests.filter (fun t => now - t < rl.time_window)).length →
      ∃ oldest,
        (rl.requests.filter (fun t => now - t < rl.time_window)).head? = some oldest ∧
        (∀ t ∈ rl.requests.filter (fun t => now - t < rl.time_window), oldest ≤ t) ∧
        0 < rl.time_window - (now - oldest) ∧
        wait_if_needed rl now =
          some (rl.time_window - (now - oldest), { rl with requests := [now] })) := by
  constructor
  · intro hlt
    unfold wait_if_needed
    rw [if_neg (not_le.mpr hlt)]
  · intro hge
    cases hl : rl.requests.filter (fun t => now - t < rl.time_window) with
    | nil =>
      rw [hl] at hge
      simp at hge
      omega
    | cons t0 rest =>
      have ht0 : t0 ∈ rl.requests.filter (fun t => now - t < rl.time_window) := by
        rw [hl]; exact List.mem_cons_self _ _
      have hwin : now - t0 < rl.time_window := by
        simpa using List.of_mem_filter ht0
      have hmin : ∀ t ∈ rl.requests.filter (fun t => now - t < rl.time_window), t0 ≤ t := by
        intro t ht
        rw [hl] at ht
        rcases List.mem_cons.mp ht with rfl | hmem
        · exact le_refl t
        · have hp : (rl.requests.filter (fun t => now - t < rl.time_window)).Pairwise (· ≤ ·) :=
            hsort.filter _
          rw [hl] at hp
          exact (List.pairwise_cons.mp hp).1 t hmem
      refine ⟨t0, rfl, hl ▸ hmin, by linarith, ?_⟩
      unfold wait_if_needed
      rw [hl]
      rw [if_pos (hl ▸ hge)]
      simp only [List.head?_cons]
      rw [if_pos (by linarith : (0:Rat) < rl.time_window - (now - t0))]

/-- Witness for wait_if_needed_sleep_spec: a limiter with bound 1 and one
in-window request at time 0, called at time 10, sleeps 50 of its 60-second
window. -/
theorem wait_if_needed_sleep_spec_witness :
    ∃ oldest,
      (([(0:Rat)] : List Rat).filter
          (fun t => (10:Rat) - t < (⟨1, 60, [0]⟩ : RateLimiter).time_window)).head? = some oldest ∧
      (∀ t ∈ ([(0:Rat)] : List Rat).filter
          (fun t => (10:Rat) - t < (⟨1, 60, [0]⟩ : RateLimiter).time_window), oldest ≤ t) ∧
      0 < (⟨1, 60, [0]⟩ : RateLimiter).time_window - (10 - oldest) ∧
      wait_if_needed ⟨1, 60, [0]⟩ 10 =
        some ((⟨1, 60, [0]⟩ : RateLimiter).time_window - (10 - oldest),
          { (⟨1, 60, [0]⟩ : RateLimiter) with requests := [10] }) :=
  (wait_if_needed_sleep_spec ⟨1, 60, [0]⟩ 10 (by norm_num) (by simp)).2
    (by rw [show ([(0:Rat)].filter (fun t => (10:Rat) - t < 60)) = [0] from by norm_num]; norm_num)

/-- If the operation fails on its first k calls (counted from `attempt`)
and succeeds on the next, with k strictly below the remaining budget, the
retry loop returns the success value after exactly k sleeps of
current_delay * backoff ^ i seconds. -/
theorem retry_aux_ok {ε α : Type} (op : Nat → Except ε α) (b : Nat) (a : α) :
    ∀ (k remaining attempt d : Nat), k < remaining →
      (∀ i, i < k → ∃ e, op (attempt + i) = Except.error e) →
      op (attempt + k) = Except.ok a →
      retry_aux op b remaining attempt d
        = (RetryResult.ok a, (List.range k).map (fun i => d * b ^ i)) := by
  intro k
  induction k with
  | zero =>
    intro remaining attempt d hk _hfail hok
    match remaining, hk with
    | remaining + 1, _ =>
      rw [Nat.add_zero] at hok
      simp [retry_aux, hok]
  | succ k ih =>
    intro remaining attempt d hk hfail hok
    match remaining, hk with
    | remaining + 1, hk =>
      have hr : k < remaining := Nat.lt_of_succ_lt_succ hk
      obtain ⟨e, he⟩ := hfail 0 (Nat.succ_pos k)
      rw [Nat.add_zero] at he
      have hrest := ih remaining (attempt + 1) (d * b) hr
        (fun i hi => by
          obtain ⟨e', he'⟩ := hfail (i + 1) (Nat.succ_lt_succ hi)
          refine ⟨e', ?_⟩
          rw [← he']
          congr 1
          omega)
        (by rw [← hok]; congr 1; omega)
      have hne : ¬ remaining = 0 := by omega
      simp only [retry_aux, he, if_neg hne, hrest]
      refine congrArg (Prod.mk (RetryResult.ok a)) ?_
      rw [List.range_succ_eq_map, List.map_cons, List.map_map]
      simp only [pow_zero, Nat.mul_one]
      refine congrArg (List.cons d) ?_
      refine List.map_congr_left (fun i _ => ?_)
      simp only [Function.comp]
      rw [pow_succ]
      ring

/-- If the operation fails on every one of the `remaining` calls, the
retry loop re-raises the error of the final attempt. -/
theorem retry_aux_raise {ε α : Type} (op : Nat → Except ε α) (b : Nat) :
    ∀ (remaining : Nat) (E : Nat → ε) (attempt d : Nat), 1 ≤ remaining →
      (∀ i, i < remaining → op (attempt + i) = Except.error (E i)) →
      (retry_aux op b remaining attempt d).1 = RetryResult.raised (E (remaining - 1)) := by
  intro remaining
  induction remaining with
  | zero => intro E attempt d h; omega
  | succ r ih =>
    intro E attempt d _h hfail
    have he : op attempt = Except.error (E 0) := by
      have := hfail 0 (Nat.succ_pos r)
      rwa [Nat.add_zero] at this
    by_cases hr : r = 0
    · subst hr
      simp [retry_aux, he]
    · have h1r : 1 ≤ r := Nat.pos_of_ne_zero hr
      have hrest := ih (fun i => E (i + 1)) (attempt + 1) (d * b) h1r
        (fun i hi => by
          have h2 := hfail (i + 1) (Nat.succ_lt_succ hi)
          rw [← h2]
          congr 1
          omega)
      simp only [retry_aux, he, if_neg hr]
      rw [hrest]
      have h3 : r - 1 + 1 = r := Nat.succ_pred_eq_of_pos h1r
      simp only [h3, Nat.add_sub_cancel]

/-- C4: the retry wrapper: an operation failing k consecutive times and
then succeeding (k below the attempt budget) yields the success value
after exactly k sleeps of d, d*b, d*b^2, ...; an operation failing on
every one of the max_retries attempts has its final failure re-raised to
the caller — regardless of the failure values, i.e. the wrapper never
inspects the failure kind. -/
theorem retry_on_failure_spec {ε α : Type} (op : Nat → Except ε α)
    (max_retries d b k : Nat) (a : α) (E : Nat → ε) :
    (k < max_retries →
      (∀ i, i < k → ∃ e, op i = Except.error e) →
      op k = Except.ok a →
      retry_on_failure max_retries d b op
        = (RetryResult.ok a, (List.range k).map (fun i => d * b ^ i))) ∧
    (1 ≤ max_retries →
      (∀ i, i < max_retries → op i = Except.error (E i)) →
      (retry_on_failure max_retries d b op).1
        = RetryResult.raised (E (max_retries - 1))) := by
  constructor
  · intro hk hfail hok
    exact retry_aux_ok op b a k max_retries 0 d hk
      (fun i hi => by simpa using hfail i hi)
      (by simpa using hok)
  · intro h1 hfail
    exact retry_aux_raise op b max_retries E 0 d h1
      (fun i hi => by simpa using hfail i hi)

/-- Witness for retry_on_failure_spec: with the source defaults
(3 attempts, delay 2, backoff 2), an operation failing twice then
returning 37 yields 37 after sleeps of exactly 2 and 4 seconds. -/
theorem retry_on_failure_spec_witness :
    retry_on_failure 3 2 2 (fun i => if i < 2 then Except.error "boom" else Except.ok 37)
      = (RetryResult.ok 37, [2, 4]) := by
  have h := (retry_on_failure_spec
      (fun i => if i < 2 then Except.error "boom" else Except.ok (37 : Nat)) 3 2 2 2 37
      (fun _ => "boom")).1 (by omega)
    (fun i hi => ⟨"boom", by simp [hi]⟩)
    (by simp)
  rw [h]
  decide

/-- Unfolding removeChar to its character-list filter. -/
theorem data_removeChar (s : String) (c : Char) :
    (removeChar s c).data = s.data.filter (fun a => a ≠ c) := rfl

/-- A character survives the blacklist deletion loop exactly when it was
present before and is not blacklisted. -/
theorem mem_foldl_removeChar (l : List Char) (s : String) (a : Char) :
    a ∈ (l.foldl removeChar s).data ↔ a ∈ s.data ∧ a ∉ l := by
  induction l generalizing s with
  | nil => simp
  | cons c cs ih =>
    rw [List.foldl_cons, ih, data_removeChar]
    simp only [List.mem_filter, List.mem_cons, decide_eq_true_eq]
    tauto

/-- The blacklist deletion loop never lengthens the string. -/
theorem length_foldl_removeChar (l : List Char) (s : String) :
    (l.foldl removeChar s).data.length ≤ s.data.length := by
  induction l generalizing s with
  | nil => exact le_refl _
  | cons c cs ih =>
    rw [List.foldl_cons]
    refine le_trans (ih _) ?_
    rw [data_removeChar]
    exact List.length_filter_le _ _

/-- The non-None tail of sanitize_string (common.py lines 119-130) applied
to the already-converted text: truncate, delete the blacklist, fall back
to "Unknown" when empty. -/
def pipeAux (s0 : String) (max_length : Nat) : String :=
  let clean1 := if max_length < s0.data.length then pyTake s0 max_length else s0
  let clean2 := dangerous_chars.foldl removeChar clean1
  if clean2.data.isEmpty then "Unknown" else clean2

/-- sanitize_string agrees with pipeAux away from None. -/
theorem sanitize_string_eq_pipeAux (v : PyVal) (max_length : Nat) (hv : v ≠ PyVal.none) :
    sanitize_string v max_length = pipeAux (pyStrip (pyStr v)) max_length := by
  cases v with
  | none => exact absurd rfl hv
  | int n => rfl
  | float q => rfl
  | str s => rfl
  | other => rfl

/-- The final fallback stage never yields the empty string. -/
theorem finalStage_ne_empty (c1 : String) :
    (if (dangerous_chars.foldl removeChar c1).data.isEmpty then "Unknown"
     else dangerous_chars.foldl removeChar c1) ≠ "" := by
  split
  · decide
  · rename_i h
    intro heq
    exact h (by rw [congrArg String.data heq]; rfl)

/-- No blacklisted character survives the deletion loop plus fallback. -/
theorem finalStage_no_dangerous (c1 : String) :
    ∀ c ∈ (if (dangerous_chars.foldl removeChar c1).data.isEmpty then "Unknown"
           else dangerous_chars.foldl removeChar c1).data, c ∉ dangerous_chars := by
  split
  · intro c hc
    exact (by decide : ∀ c ∈ ("Unknown" : String).data, c ∉ dangerous_chars) c hc
  · intro c hc
    exact ((mem_foldl_removeChar _ _ _).mp hc).2

/-- Length bound for the deletion loop plus fallback, given the input
already fits and the cap is at least the fallback length 7. -/
theorem finalStage_length (c1 : String) (max_length : Nat)
    (h1 : c1.data.length ≤ max_length) (h7 : 7 ≤ max_length) :
    (if (dangerous_chars.foldl removeChar c1).data.isEmpty then "Unknown"
     else dangerous_chars.foldl removeChar c1).length ≤ max_length := by
  split
  · have h : ("Unknown" : String).length = 7 := rfl
    omega
  · show (dangerous_chars.foldl removeChar c1).data.length ≤ max_length
    exact le_trans (length_foldl_removeChar _ _) h1

/-- The pipeline result is never the empty string. -/
theorem pipeAux_ne_empty (s0 : String) (max_length : Nat) :
    pipeAux s0 max_length ≠ "" := by
  simp only [pipeAux]
  exact finalStage_ne_empty _

/-- No blacklisted character survives the pipeline. -/
theorem pipeAux_no_dangerous (s0 : String) (max_length : Nat) :
    ∀ c ∈ (pipeAux s0 max_length).data, c ∉ dangerous_chars := by
  simp only [pipeAux]
  exact finalStage_no_dangerous _

/-- With max_length at least 7 (the length of the fallback "Unknown"),
the pipeline result fits in max_length. -/
theorem pipeAux_length (s0 : String) (max_length : Nat) (h7 : 7 ≤ max_length) :
    (pipeAux s0 max_length).length ≤ max_length := by
  simp only [pipeAux]
  refine finalStage_length _ _ ?_ h7
  split
  · simp only [pyTake, List.length_take]
    exact min_le_left _ _
  · omega

/-- C5 counterexample: with max_length = 3, the input "<" strips to the
empty string, so the fallback "Unknown" (length 7) is returned and the
output exceeds max_length — the claimed length bound fails for
max_length below 7. -/
theorem sanitize_string_length_cex :
    sanitize_string (PyVal.str "<") 3 = "Unknown" ∧
    3 < (sanitize_string (PyVal.str "<") 3).length := by decide

/-- C5 amended: sanitize_string converts, trims, truncates to max_length
and removes every blacklisted character; it returns "Unknown" on absent
input or when the result empties out; the result is never empty, never
contains a blacklisted character, and — whenever max_length is at least 7,
the length of the fallback — never exceeds max_length; the spec's
script-tag example holds. -/
theorem sanitize_string_spec (v : PyVal) (max_length : Nat) :
    sanitize_string PyVal.none max_length = "Unknown" ∧
    sanitize_string v max_length ≠ "" ∧
    (∀ c ∈ (sanitize_string v max_length).data, c ∉ dangerous_chars) ∧
    (7 ≤ max_length → (sanitize_string v max_length).length ≤ max_length) ∧
    sanitize_string (PyVal.str "<script>x</script>") 50 = "scriptx/script" := by
  refine ⟨rfl, ?_, ?_, ?_, by decide⟩
  · by_cases hv : v = PyVal.none
    · subst hv
      show ("Unknown" : String) ≠ ""
      decide
    · rw [sanitize_string_eq_pipeAux v max_length hv]
      exact pipeAux_ne_empty _ _
  · by_cases hv : v = PyVal.none
    · subst hv
      exact (by decide : ∀ c ∈ ("Unknown" : String).data, c ∉ dangerous_chars)
    · rw [sanitize_string_eq_pipeAux v max_length hv]
      exact pipeAux_no_dangerous _ _
  · intro h7
    by_cases hv : v = PyVal.none
    · subst hv
      show ("Unknown" : String).length ≤ max_length
      have h : ("Unknown" : String).length = 7 := rfl
      omega
    · rw [sanitize_string_eq_pipeAux v max_length hv]
      exact pipeAux_length _ _ h7

/-- Witness for sanitize_string_spec at a concrete input and cap. -/
theorem sanitize_string_spec_witness :
    (sanitize_string (PyVal.str "  hi<there  ") 10).length ≤ 10 :=
  (sanitize_string_spec (PyVal.str "  hi<there  ") 10).2.2.2.1 (by omega)

/-- Case analysis of the transmission lookup on an arbitrary gearbox
code. -/
theorem transmission_label_cases (c : String) :
    get_transmission_type (mk_car_with_gearbox (some (PyVal.str c)))
      = if c = "selector_gearbox_manualShift" then "Manual"
        else if c = "selector_gearbox_automatic" then "Automatic"
        else if c = "selector_gearbox_semiautomatic" then "Semi-Automatic"
        else "Unknown" := by
  have hbase : get_transmission_type (mk_car_with_gearbox (some (PyVal.str c)))
      = sanitize_string (PyVal.str ((transmission_map.lookup c).getD "Unknown")) 500 := rfl
  rw [hbase]
  by_cases h1 : c = "selector_gearbox_manualShift"
  · subst h1; decide
  by_cases h2 : c = "selector_gearbox_automatic"
  · subst h2; decide
  by_cases h3 : c = "selector_gearbox_semiautomatic"
  · subst h3; decide
  have l1 : (c == ("selector_gearbox_manualShift" : String)) = false :=
    beq_eq_false_iff_ne.mpr h1
  have l2 : (c == ("selector_gearbox_automatic" : String)) = false :=
    beq_eq_false_iff_ne.mpr h2
  have l3 : (c == ("selector_gearbox_semiautomatic" : String)) = false :=
    beq_eq_false_iff_ne.mpr h3
  simp only [transmission_map, List.lookup, l1, l2, l3]
  rw [if_neg h1, if_neg h2, if_neg h3]
  decide

/-- A gearbox code produces a label other than "Unknown" exactly when it
is one of the three codes of transmission_map. -/
theorem transmission_nonunknown_iff (c : String) :
    get_transmission_type (mk_car_with_gearbox (some (PyVal.str c))) ≠ "Unknown" ↔
      c ∈ ({"selector_gearbox_manualShift", "selector_gearbox_automatic",
            "selector_gearbox_semiautomatic"} : Finset String) := by
  rw [transmission_label_cases c]
  constructor
  · intro hne
    by_contra hmem
    simp only [Finset.mem_insert, Finset.mem_singleton] at hmem
    push_neg at hmem
    obtain ⟨n1, n2, n3⟩ := hmem
    rw [if_neg n1, if_neg n2, if_neg n3] at hne
    exact hne rfl
  · intro hmem
    simp only [Finset.mem_insert, Finset.mem_singleton] at hmem
    rcases hmem with rfl | rfl | rfl <;> decide

/-- C7 counterexample: the claim of exactly 5 distinct raw gearbox codes
with a non-"Unknown" label is false — transmission_map has 3 codes, so no
5-element code set can characterise the non-"Unknown" labels. -/
theorem transmission_five_codes_cex :
    ¬ ∃ codes : Finset String,
        (∀ c : String,
          get_transmission_type (mk_car_with_gearbox (some (PyVal.str c))) ≠ "Unknown" ↔
            c ∈ codes) ∧
        codes.card = 5 := by
  rintro ⟨codes, hchar, hcard⟩
  have hset : codes = ({"selector_gearbox_manualShift", "selector_gearbox_automatic",
      "selector_gearbox_semiautomatic"} : Finset String) := by
    ext c
    rw [← hchar c, transmission_nonunknown_iff c]
  rw [hset] at hcard
  have h3 : ({"selector_gearbox_manualShift", "selector_gearbox_automatic",
      "selector_gearbox_semiautomatic"} : Finset String).card = 3 := by decide
  omega

/-- The transmission lookup result for an arbitrary dictionary value. -/
theorem dict_get_transmission_mem (g : PyVal) :
    dict_get_str transmission_map g "Unknown"
      ∈ (["Manual", "Automatic", "Semi-Automatic", "Unknown"] : List String) := by
  cases g with
  | str s =>
    simp only [dict_get_str]
    by_cases h1 : s = "selector_gearbox_manualShift"
    · subst h1; decide
    by_cases h2 : s = "selector_gearbox_automatic"
    · subst h2; decide
    by_cases h3 : s = "selector_gearbox_semiautomatic"
    · subst h3; decide
    have l1 : (s == ("selector_gearbox_manualShift" : String)) = false :=
      beq_eq_false_iff_ne.mpr h1
    have l2 : (s == ("selector_gearbox_automatic" : String)) = false :=
      beq_eq_false_iff_ne.mpr h2
    have l3 : (s == ("selector_gearbox_semiautomatic" : String)) = false :=
      beq_eq_false_iff_ne.mpr h3
    simp only [transmission_map, List.lookup, l1, l2, l3]
    decide
  | none => decide
  | int n =>
    show ("Unknown" : String) ∈ (["Manual", "Automatic", "Semi-Automatic", "Unknown"] : List String)
    decide
  | float q =>
    show ("Unknown" : String) ∈ (["Manual", "Automatic", "Semi-Automatic", "Unknown"] : List String)
    decide
  | other => decide

/-- C7 amended: the transmission label of every raw listing is one of the
fixed enumeration Manual, Automatic, Semi-Automatic, Unknown; an absent
drivetrain block yields "Unknown"; and exactly 3 (not 5) distinct raw
gearbox codes map to a non-"Unknown" label. -/
theorem transmission_label_spec :
    (∀ car : RawCar,
      get_transmission_type car
        ∈ (["Manual", "Automatic", "Semi-Automatic", "Unknown"] : List String)) ∧
    (∀ car : RawCar, car.driveSuspension = Option.none →
      get_transmission_type car = "Unknown") ∧
    (∃ codes : Finset String,
      (∀ c : String,
        get_transmission_type (mk_car_with_gearbox (some (PyVal.str c))) ≠ "Unknown" ↔
          c ∈ codes) ∧
      codes.card = 3) := by
  refine ⟨?_, ?_, ?_⟩
  · intro car
    have hbase : get_transmission_type car
        = sanitize_string (PyVal.str (dict_get_str transmission_map
            ((car.driveSuspension.getD ⟨Option.none⟩).gearbox.getD (PyVal.str "Unknown"))
            "Unknown")) 500 := rfl
    rw [hbase]
    have hmem := dict_get_transmission_mem
      ((car.driveSuspension.getD ⟨Option.none⟩).gearbox.getD (PyVal.str "Unknown"))
    simp only [List.mem_cons, List.not_mem_nil, or_false] at hmem
    rcases hmem with h | h | h | h <;> rw [h] <;> decide
  · intro car h
    unfold get_transmission_type
    rw [h]
    decide
  · refine ⟨{"selector_gearbox_manualShift", "selector_gearbox_automatic",
      "selector_gearbox_semiautomatic"}, fun c => transmission_nonunknown_iff c, by decide⟩

/-- Witness for transmission_label_spec: a listing with no drivetrain
block gets the label "Unknown". -/
theorem transmission_label_spec_witness :
    get_transmission_type RawCar.empty = "Unknown" :=
  transmission_label_spec.2.1 RawCar.empty rfl
